import Mathlib

/-!
Verification of the BM-Lite fingerprint session manager
(`src/fingerprint.rs`) against its specification.

The module drives a fingerprint sensor through a firmware library; each
firmware/platform call returns an `i32` status where the sentinel
`FPC_BEP_RESULT_OK` (value 0 of `fpc_bep_result_t`) means success.  We embed
the module shallowly: the firmware is an oracle (`Fw`) giving the status code
and out-parameters each entry point would return, heap allocation
(`Box::into_raw` of the five configuration blocks) is an explicit `Heap`, and
every operation returns its result together with the trace of
firmware/platform calls (and host-side sleeps) it performed, in order.
-/

namespace Fingerprint

/-- Status code returned by firmware/platform calls (`i32` in the source). -/
abbrev Status := Int

/-- The success sentinel of `fpc_bep_result_t`. -/
def FPC_BEP_RESULT_OK : Status := 0

/-- The five heap blocks `alloc_config` creates with `Box::into_raw`:
the 3072-byte packet buffer, the MTU-sized txrx buffer, the `HCP_comm_t`
chain (the Protocol Channel), the `pin_config_t` block and the `Params`
block. -/
inductive AllocKind where
  | pktBuffer
  | txrxBuffer
  | chainBlock
  | pinsBlock
  | paramsBlock
deriving DecidableEq, Repr

/-- The heap of raw-pointer blocks: a fresh-id counter and the live blocks. -/
structure Heap where
  nextId : Nat
  live : List (Nat × AllocKind)
deriving DecidableEq, Repr

def Heap.empty : Heap := ⟨0, []⟩

def Heap.alloc (h : Heap) (k : AllocKind) : Nat × Heap :=
  (h.nextId, ⟨h.nextId + 1, h.live ++ [(h.nextId, k)]⟩)

/-- Number of live blocks of kind `k`. -/
def Heap.countKind (h : Heap) (k : AllocKind) : Nat :=
  (h.live.filter (fun p => p.2 == k)).length

/-- `SensorCtx`: the three raw pointers (allocation ids, `none` = null)
and the `initialized` flag. -/
structure SensorCtx where
  params : Option Nat
  pins : Option Nat
  chain : Option Nat
  initialized : Bool
deriving DecidableEq, Repr

/-- `SensorCtx::new`: all pointers null, not initialized. -/
def SensorCtx.new : SensorCtx := ⟨none, none, none, false⟩

/-- `SensorCtx::set`. -/
def SensorCtx.set (_c : SensorCtx) (params pins chain : Nat) : SensorCtx :=
  ⟨some params, some pins, some chain, true⟩

/-- `SensorCtx::reset`. -/
def SensorCtx.reset (_c : SensorCtx) : SensorCtx :=
  ⟨none, none, none, false⟩

/-- `SensorCtx::is_set`: initialized and chain pointer non-null. -/
def SensorCtx.is_set (c : SensorCtx) : Bool :=
  c.initialized && c.chain.isSome

/-- Oracle for the firmware/platform entry points: the status code (and, for
calls with out-parameters, the values) each call reports when invoked. -/
structure Fw where
  platformInitRes : Status
  calibrateRes : Status
  swResetRes : Status
  enrollRes : Status
  saveRes : Status
  countRes : Status
  countVal : Nat
  identifyRes : Status
  identifyTid : Nat
  identifyMatched : Bool
  removeAllRes : Status
  waitPresentRes : Status
  waitNotPresentRes : Status
  platformDeinitRes : Status
deriving DecidableEq, Repr

/-- A firmware/platform call, with the argument values the driver passes. -/
inductive FwCall where
  | platformInitCall
  | platformDeinitCall
  | calibrate
  | swReset
  | enrollFinger
  | identifyFinger (timeout : Nat)
  | templateGetCount
  | templateRemoveAll
  | templateSave (id : Nat)
  | waitFingerPresent (timeout : Nat)
  | waitFingerNotPresent (timeout : Nat)
deriving DecidableEq, Repr

/-- An observable event: a firmware/platform call, or a host-side sleep. -/
inductive Ev where
  | call (c : FwCall)
  | sleepMs (n : Nat)
deriving DecidableEq, Repr

/-- `check_bep`: `Ok` when the status is the OK sentinel, otherwise an error
carrying the step name and the raw status code
(`anyhow!("{what} failed with code {res}")`). -/
def check_bep (res : Status) (what : String) : Except String Unit :=
  if res = FPC_BEP_RESULT_OK then .ok ()
  else .error (what ++ " failed with code " ++ toString res)

/-- `alloc_config`: allocates the packet buffer, the txrx buffer, the HCP
chain, the pin config and the params block, in this order, and returns the
`(params, pins, chain)` pointers.  The Rust function returns `Result` but
has no failing path. -/
def alloc_config (h : Heap) : (Nat × Nat × Nat) × Heap :=
  let (_pkt, h1) := h.alloc .pktBuffer
  let (_txrx, h2) := h1.alloc .txrxBuffer
  let (chain, h3) := h2.alloc .chainBlock
  let (pins, h4) := h3.alloc .pinsBlock
  let (params, h5) := h4.alloc .paramsBlock
  ((params, pins, chain), h5)

instance instDecEqExcept {ε α : Type} [DecidableEq ε] [DecidableEq α] :
    DecidableEq (Except ε α) := fun a b =>
  match a, b with
  | .error e1, .error e2 =>
      if h : e1 = e2 then .isTrue (by rw [h])
      else .isFalse (fun he => by cases he; exact h rfl)
  | .error _, .ok _ => .isFalse (fun he => by cases he)
  | .ok _, .error _ => .isFalse (fun he => by cases he)
  | .ok a1, .ok a2 =>
      if h : a1 = a2 then .isTrue (by rw [h])
      else .isFalse (fun he => by cases he; exact h rfl)

/-- Outcome of a lifecycle operation: result, new context, new heap, and the
trace of events performed, in order. -/
structure OpOut (α : Type) where
  res : Except String α
  ctx : SensorCtx
  heap : Heap
  evs : List Ev
deriving DecidableEq, Repr

/-- `init`: no-op when `is_set`; otherwise allocates the config blocks and
calls `platform_init`.  On a non-OK status the `?` operator returns the
error without freeing the freshly `Box::into_raw`-ed blocks (the source has
no matching free on that path), and the context is left untouched. -/
def init (fw : Fw) (c : SensorCtx) (h : Heap) : OpOut Unit :=
  if c.is_set then ⟨.ok (), c, h, []⟩
  else
    let ((params, pins, chain), h1) := alloc_config h
    match check_bep fw.platformInitRes "platform_init" with
    | .error e => ⟨.error e, c, h1, [.call .platformInitCall]⟩
    | .ok () => ⟨.ok (), c.set params pins chain, h1, [.call .platformInitCall]⟩

/-- `is_user_enrolled`: guard on `is_set`, then `bep_template_get_count`,
returning whether the count is positive. -/
def is_user_enrolled (fw : Fw) (c : SensorCtx) : Except String Bool × List Ev :=
  if !c.is_set then (.error "BM-Lite not initialized", [])
  else
    match check_bep fw.countRes "bep_template_get_count" with
    | .error e => (.error e, [.call .templateGetCount])
    | .ok () => (.ok (decide (fw.countVal > 0)), [.call .templateGetCount])

/-- `wipe_templates`: a no-op (`Ok`) when not `is_set`; otherwise
`bep_template_remove_all`. -/
def wipe_templates (fw : Fw) (c : SensorCtx) : Except String Unit × List Ev :=
  if !c.is_set then (.ok (), [])
  else
    match check_bep fw.removeAllRes "bep_template_remove_all" with
    | .error e => (.error e, [.call .templateRemoveAll])
    | .ok () => (.ok (), [.call .templateRemoveAll])

/-- `enroll_user`: guard on `is_set`, then in order: `bep_enroll_finger`,
`bep_template_save(1)`, `bep_template_get_count`,
`sensor_wait_finger_not_present(5000)`, and a 150 ms sleep; the first
non-OK status aborts the rest via `?`. -/
def enroll_user (fw : Fw) (c : SensorCtx) : Except String Unit × List Ev :=
  if !c.is_set then (.error "BM-Lite not initialized", [])
  else
    match check_bep fw.enrollRes "bep_enroll_finger" with
    | .error e => (.error e, [.call .enrollFinger])
    | .ok () =>
    match check_bep fw.saveRes "bep_template_save" with
    | .error e => (.error e, [.call .enrollFinger, .call (.templateSave 1)])
    | .ok () =>
    match check_bep fw.countRes "bep_template_get_count après save" with
    | .error e =>
        (.error e,
         [.call .enrollFinger, .call (.templateSave 1), .call .templateGetCount])
    | .ok () =>
    match check_bep fw.waitNotPresentRes "sensor_wait_finger_not_present" with
    | .error e =>
        (.error e,
         [.call .enrollFinger, .call (.templateSave 1), .call .templateGetCount,
          .call (.waitFingerNotPresent 5000)])
    | .ok () =>
        (.ok (),
         [.call .enrollFinger, .call (.templateSave 1), .call .templateGetCount,
          .call (.waitFingerNotPresent 5000), .sleepMs 150])

/-- `check_once`: guard on `is_set`; clamp the timeout to 65535 for the
16-bit `sensor_wait_finger_present` (`timeout_ms.min(65_535) as u16`); then
`bep_identify_finger` with the unmodified 32-bit `timeout_ms`; then
`sensor_wait_finger_not_present(5000)` whose result is discarded
(`let _ = ...`); finally `Ok(matched)`. -/
def check_once (fw : Fw) (c : SensorCtx) (timeout_ms : Nat) :
    Except String Bool × List Ev :=
  if !c.is_set then (.error "BM-Lite not initialized", [])
  else
    let t := min timeout_ms 65535
    match check_bep fw.waitPresentRes "sensor_wait_finger_present" with
    | .error e => (.error e, [.call (.waitFingerPresent t)])
    | .ok () =>
    match check_bep fw.identifyRes "bep_identify_finger" with
    | .error e =>
        (.error e,
         [.call (.waitFingerPresent t), .call (.identifyFinger timeout_ms)])
    | .ok () =>
        (.ok fw.identifyMatched,
         [.call (.waitFingerPresent t), .call (.identifyFinger timeout_ms),
          .call (.waitFingerNotPresent 5000)])

/-- The allocation kinds owned by one session (everything `alloc_config`
creates: the Protocol Channel, its two buffers, and the Transport
Configuration blocks). -/
def sessionKinds : List AllocKind :=
  [.pktBuffer, .txrxBuffer, .chainBlock, .pinsBlock, .paramsBlock]

/-- Modelled from the spec: the repository's visible sources contain no
deinitialize entry point; this follows §4.2 "Deinitialize": a no-op when not
initialized; otherwise call `platform_deinit`; on success release the
Protocol Channel / Transport Configuration blocks and clear the flag; on a
non-OK status leave the session state (and heap) unchanged so a retry is
possible. -/
def deinit (fw : Fw) (c : SensorCtx) (h : Heap) : OpOut Unit :=
  if !c.is_set then ⟨.ok (), c, h, []⟩
  else
    match check_bep fw.platformDeinitRes "platform_deinit" with
    | .error e => ⟨.error e, c, h, [.call .platformDeinitCall]⟩
    | .ok () =>
        ⟨.ok (), c.reset,
         ⟨h.nextId, h.live.filter (fun p => !(sessionKinds.contains p.2))⟩,
         [.call .platformDeinitCall]⟩

/-- Modelled from the spec: the conditional enroll variant (§4.2
"Conditional enroll", §8) is absent from the visible sources (the module
evolved away from it).  It auto-initializes if needed, queries the template
count, returns success with no capture/save call when the count is
positive, and otherwise performs calibrate, soft reset, guided capture, and
save under template id 1, in that strict order, aborting on the first
non-OK status. -/
def enroll_if_needed (fw : Fw) (c : SensorCtx) (h : Heap) : OpOut Unit :=
  let o := if c.is_set then OpOut.mk (.ok ()) c h [] else init fw c h
  match o.res with
  | .error e => ⟨.error e, o.ctx, o.heap, o.evs⟩
  | .ok () =>
    match check_bep fw.countRes "bep_template_get_count" with
    | .error e => ⟨.error e, o.ctx, o.heap, o.evs ++ [.call .templateGetCount]⟩
    | .ok () =>
      if fw.countVal > 0 then
        ⟨.ok (), o.ctx, o.heap, o.evs ++ [.call .templateGetCount]⟩
      else
        match check_bep fw.calibrateRes "bep_sensor_calibrate" with
        | .error e =>
            ⟨.error e, o.ctx, o.heap,
             o.evs ++ [.call .templateGetCount, .call .calibrate]⟩
        | .ok () =>
        match check_bep fw.swResetRes "bep_sw_reset" with
        | .error e =>
            ⟨.error e, o.ctx, o.heap,
             o.evs ++ [.call .templateGetCount, .call .calibrate, .call .swReset]⟩
        | .ok () =>
        match check_bep fw.enrollRes "bep_enroll_finger" with
        | .error e =>
            ⟨.error e, o.ctx, o.heap,
             o.evs ++ [.call .templateGetCount, .call .calibrate, .call .swReset,
                       .call .enrollFinger]⟩
        | .ok () =>
        match check_bep fw.saveRes "bep_template_save" with
        | .error e =>
            ⟨.error e, o.ctx, o.heap,
             o.evs ++ [.call .templateGetCount, .call .calibrate, .call .swReset,
                       .call .enrollFinger, .call (.templateSave 1)]⟩
        | .ok () =>
            ⟨.ok (), o.ctx, o.heap,
             o.evs ++ [.call .templateGetCount, .call .calibrate, .call .swReset,
                       .call .enrollFinger, .call (.templateSave 1)]⟩

/-- `fw` with only the `sensor_wait_finger_not_present` status replaced. -/
def Fw.withWaitNotPresent (fw : Fw) (r : Status) : Fw :=
  ⟨fw.platformInitRes, fw.calibrateRes, fw.swResetRes, fw.enrollRes, fw.saveRes,
   fw.countRes, fw.countVal, fw.identifyRes, fw.identifyTid, fw.identifyMatched,
   fw.removeAllRes, fw.waitPresentRes, r, fw.platformDeinitRes⟩

/-- A firmware oracle where every call succeeds, the stored-template count is
1, and identification matches template id 7. -/
def fwOK : Fw := ⟨0, 0, 0, 0, 0, 0, 1, 0, 7, true, 0, 0, 0, 0⟩

/-- A firmware oracle whose `platform_init` fails with status code 1. -/
def fwInitFail : Fw := ⟨1, 0, 0, 0, 0, 0, 0, 0, 0, true, 0, 0, 0, 0⟩

/-- The context produced by a successful `init` from a fresh state. -/
def ctxInit : SensorCtx := ⟨some 4, some 3, some 2, true⟩

/-- The heap produced by a successful `init` from an empty heap. -/
def heapInit : Heap :=
  ⟨5, [(0, .pktBuffer), (1, .txrxBuffer), (2, .chainBlock),
       (3, .pinsBlock), (4, .paramsBlock)]⟩

/-- Filtering a live-block list down to blocks whose kind is not a session
kind leaves nothing: every `AllocKind` is session-owned. -/
theorem live_filter_sessionKinds (l : List (Nat × AllocKind)) :
    l.filter (fun p => !(sessionKinds.contains p.2)) = [] := by
  induction l with
  | nil => rfl
  | cons a as ih =>
      cases a with
      | mk i k => cases k <;> simpa [sessionKinds] using ih

/-- C1: on an initialized session, `check_once` returns `Ok matched` exactly
when the wait-for-presence and identify calls both report the OK status; a
non-OK status from the identify call yields an error carrying the raw code
regardless of the matched flag, and a non-OK status from the
wait-for-presence call likewise yields an error carrying the raw code. -/
theorem C1_check_once_match_mapping (fw : Fw) (c : SensorCtx) (t : Nat)
    (hc : c.is_set = true) :
    (fw.waitPresentRes = FPC_BEP_RESULT_OK → fw.identifyRes = FPC_BEP_RESULT_OK →
       (check_once fw c t).1 = .ok fw.identifyMatched) ∧
    (fw.waitPresentRes = FPC_BEP_RESULT_OK → fw.identifyRes ≠ FPC_BEP_RESULT_OK →
       (check_once fw c t).1 =
         .error ("bep_identify_finger failed with code " ++ toString fw.identifyRes)) ∧
    (fw.waitPresentRes ≠ FPC_BEP_RESULT_OK →
       (check_once fw c t).1 =
         .error ("sensor_wait_finger_present failed with code " ++
                 toString fw.waitPresentRes)) := by
  refine ⟨?_, ?_, ?_⟩
  · intro h1 h2; simp [check_once, check_bep, hc, h1, h2]
  · intro h1 h2; simp [check_once, check_bep, hc, h1, h2]
  · intro h1; simp [check_once, check_bep, hc, h1]

/-- C1 witness: with every firmware call succeeding and the matched flag set,
`check_once` on an initialized session returns `Ok true`. -/
theorem C1_check_once_match_mapping_witness :
    ctxInit.is_set = true ∧
    fwOK.waitPresentRes = FPC_BEP_RESULT_OK ∧
    fwOK.identifyRes = FPC_BEP_RESULT_OK ∧
    (check_once fwOK ctxInit 5000).1 = .ok true :=
  ⟨by decide, by decide, by decide,
   (C1_check_once_match_mapping fwOK ctxInit 5000 (by decide)).1 rfl rfl⟩

/-- C2 counterexample: `check_once 100000` passes the unclamped value 100000,
which exceeds 65535, to the `bep_identify_finger` firmware call. -/
theorem C2_unclamped_identify_timeout :
    Ev.call (.identifyFinger 100000) ∈ (check_once fwOK ctxInit 100000).2 ∧
    ¬ (100000 ≤ 65535) := by decide

/-- C2 amended: `check_once` clamps the timeout to 65535 only for the 16-bit
`sensor_wait_finger_present` call (it passes `min timeout 65535` there),
while the 32-bit `bep_identify_finger` call receives the caller's value
unmodified. -/
theorem C2_clamp_amended (fw : Fw) (c : SensorCtx) (t : Nat)
    (hc : c.is_set = true) (h1 : fw.waitPresentRes = FPC_BEP_RESULT_OK)
    (h2 : fw.identifyRes = FPC_BEP_RESULT_OK) :
    (check_once fw c t).2 =
      [.call (.waitFingerPresent (min t 65535)), .call (.identifyFinger t),
       .call (.waitFingerNotPresent 5000)] ∧
    min t 65535 ≤ 65535 := by
  constructor
  · simp [check_once, check_bep, hc, h1, h2]
  · exact min_le_right _ _

/-- C2 amended witness: at timeout 100000 the wait call receives 65535 and
the identify call receives 100000. -/
theorem C2_clamp_amended_witness :
    ctxInit.is_set = true ∧
    (check_once fwOK ctxInit 100000).2 =
      [.call (.waitFingerPresent 65535), .call (.identifyFinger 100000),
       .call (.waitFingerNotPresent 5000)] :=
  ⟨by decide,
   (C2_clamp_amended fwOK ctxInit 100000 (by decide) rfl rfl).1⟩

/-- C10: the result of the final `sensor_wait_finger_not_present` call in
`check_once` is discarded: replacing its status by any value changes neither
the returned value nor the trace, and after a successful identify the
operation returns `Ok matched` for every removal-wait status. -/
theorem C10_removal_wait_result_discarded (fw : Fw) (c : SensorCtx) (t : Nat)
    (r : Status) :
    check_once (fw.withWaitNotPresent r) c t = check_once fw c t ∧
    (c.is_set = true → fw.waitPresentRes = FPC_BEP_RESULT_OK →
      fw.identifyRes = FPC_BEP_RESULT_OK →
      (check_once (fw.withWaitNotPresent r) c t).1 = .ok fw.identifyMatched) := by
  constructor
  · rfl
  · intro hc h1 h2
    simp [check_once, check_bep, Fw.withWaitNotPresent, hc, h1, h2]

/-- C10 witness: forcing the removal-wait status to 5 (non-OK) leaves the
outcome of `check_once` unchanged and still `Ok true`. -/
theorem C10_removal_wait_result_discarded_witness :
    check_once (fwOK.withWaitNotPresent 5) ctxInit 5000 =
      check_once fwOK ctxInit 5000 ∧
    (check_once (fwOK.withWaitNotPresent 5) ctxInit 5000).1 = .ok true :=
  ⟨(C10_removal_wait_result_discarded fwOK ctxInit 5000 5).1,
   (C10_removal_wait_result_discarded fwOK ctxInit 5000 5).2 (by decide) rfl rfl⟩

/-- C3: starting from a fresh session, two successive `init` calls both
succeed; the second is a no-op that performs no event (no platform call)
and leaves the heap unchanged (no allocation), and exactly one chain block
(Protocol Channel) is live afterwards. -/
theorem C3_init_idempotent (fw : Fw)
    (hp : fw.platformInitRes = FPC_BEP_RESULT_OK) :
    (init fw SensorCtx.new Heap.empty).res = .ok () ∧
    (init fw (init fw SensorCtx.new Heap.empty).ctx
        (init fw SensorCtx.new Heap.empty).heap).res = .ok () ∧
    (init fw (init fw SensorCtx.new Heap.empty).ctx
        (init fw SensorCtx.new Heap.empty).heap).evs = [] ∧
    (init fw (init fw SensorCtx.new Heap.empty).ctx
        (init fw SensorCtx.new Heap.empty).heap).heap =
      (init fw SensorCtx.new Heap.empty).heap ∧
    (init fw SensorCtx.new Heap.empty).heap.countKind .chainBlock = 1 := by
  have h1 : init fw SensorCtx.new Heap.empty =
      ⟨.ok (), ctxInit, heapInit, [.call .platformInitCall]⟩ := by
    simp [init, alloc_config, check_bep, hp, Heap.empty, Heap.alloc, ctxInit,
          heapInit, SensorCtx.new, SensorCtx.set, SensorCtx.is_set]
  rw [h1]
  exact ⟨rfl, rfl, rfl, rfl, rfl⟩

/-- C3 witness: the idempotence of `init`, instantiated with the all-OK
firmware oracle. -/
theorem C3_init_idempotent_witness :
    fwOK.platformInitRes = FPC_BEP_RESULT_OK ∧
    (init fwOK SensorCtx.new Heap.empty).res = .ok () ∧
    (init fwOK (init fwOK SensorCtx.new Heap.empty).ctx
        (init fwOK SensorCtx.new Heap.empty).heap).res = .ok () ∧
    (init fwOK (init fwOK SensorCtx.new Heap.empty).ctx
        (init fwOK SensorCtx.new Heap.empty).heap).evs = [] ∧
    (init fwOK SensorCtx.new Heap.empty).heap.countKind .chainBlock = 1 :=
  ⟨by decide, (C3_init_idempotent fwOK rfl).1, (C3_init_idempotent fwOK rfl).2.1,
   (C3_init_idempotent fwOK rfl).2.2.1, (C3_init_idempotent fwOK rfl).2.2.2.2⟩

/-- C4 (code bug): when `platform_init` fails with status 1 on a fresh
session, `init` returns the error carrying the raw code and the session
stays uninitialized, but all five freshly allocated blocks, the Protocol
Channel among them, remain live — nothing on the error path frees the
`Box::into_raw` allocations, contradicting the required
release-before-return. -/
theorem C4_init_failure_leaks_blocks :
    (init fwInitFail SensorCtx.new Heap.empty).res =
      .error "platform_init failed with code 1" ∧
    (init fwInitFail SensorCtx.new Heap.empty).ctx.initialized = false ∧
    (init fwInitFail SensorCtx.new Heap.empty).heap.live.length = 5 ∧
    (init fwInitFail SensorCtx.new Heap.empty).heap.countKind .chainBlock = 1 := by
  decide

/-- C5: on an initialized session `enroll_user` performs, in strict order,
the guided capture, the save under template id 1, the count re-query, the
5000 ms wait for finger removal, and the 150 ms settle sleep; the first
sub-step reporting a non-OK status aborts all remaining steps and yields an
error naming that sub-step and the raw status code. -/
theorem C5_enroll_sequence (fw : Fw) (c : SensorCtx) (hc : c.is_set = true) :
    (fw.enrollRes = FPC_BEP_RESULT_OK → fw.saveRes = FPC_BEP_RESULT_OK →
     fw.countRes = FPC_BEP_RESULT_OK → fw.waitNotPresentRes = FPC_BEP_RESULT_OK →
      enroll_user fw c =
        (.ok (), [.call .enrollFinger, .call (.templateSave 1),
                  .call .templateGetCount, .call (.waitFingerNotPresent 5000),
                  .sleepMs 150])) ∧
    (fw.enrollRes ≠ FPC_BEP_RESULT_OK →
      enroll_user fw c =
        (.error ("bep_enroll_finger failed with code " ++ toString fw.enrollRes),
         [.call .enrollFinger])) ∧
    (fw.enrollRes = FPC_BEP_RESULT_OK → fw.saveRes ≠ FPC_BEP_RESULT_OK →
      enroll_user fw c =
        (.error ("bep_template_save failed with code " ++ toString fw.saveRes),
         [.call .enrollFinger, .call (.templateSave 1)])) ∧
    (fw.enrollRes = FPC_BEP_RESULT_OK → fw.saveRes = FPC_BEP_RESULT_OK →
     fw.countRes ≠ FPC_BEP_RESULT_OK →
      enroll_user fw c =
        (.error ("bep_template_get_count après save failed with code " ++
                 toString fw.countRes),
         [.call .enrollFinger, .call (.templateSave 1), .call .templateGetCount])) ∧
    (fw.enrollRes = FPC_BEP_RESULT_OK → fw.saveRes = FPC_BEP_RESULT_OK →
     fw.countRes = FPC_BEP_RESULT_OK → fw.waitNotPresentRes ≠ FPC_BEP_RESULT_OK →
      enroll_user fw c =
        (.error ("sensor_wait_finger_not_present failed with code " ++
                 toString fw.waitNotPresentRes),
         [.call .enrollFinger, .call (.templateSave 1), .call .templateGetCount,
          .call (.waitFingerNotPresent 5000)])) := by
  refine ⟨?_, ?_, ?_, ?_, ?_⟩ <;> intros <;> simp_all [enroll_user, check_bep, hc]

/-- C5 witness: the all-OK run of `enroll_user` on an initialized session,
showing the full ordered trace. -/
theorem C5_enroll_sequence_witness :
    ctxInit.is_set = true ∧
    enroll_user fwOK ctxInit =
      (.ok (), [.call .enrollFinger, .call (.templateSave 1),
                .call .templateGetCount, .call (.waitFingerNotPresent 5000),
                .sleepMs 150]) :=
  ⟨by decide, (C5_enroll_sequence fwOK ctxInit (by decide)).1 rfl rfl rfl rfl⟩

/-- C6: on a session that is not set up, `is_user_enrolled`, `enroll_user`
and `check_once` all fail with the not-initialized error and perform no
firmware call (empty trace). -/
theorem C6_uninitialized_guard (fw : Fw) (c : SensorCtx) (t : Nat)
    (hc : c.is_set = false) :
    is_user_enrolled fw c = (.error "BM-Lite not initialized", []) ∧
    enroll_user fw c = (.error "BM-Lite not initialized", []) ∧
    check_once fw c t = (.error "BM-Lite not initialized", []) := by
  refine ⟨?_, ?_, ?_⟩ <;> simp [is_user_enrolled, enroll_user, check_once, hc]

/-- C6 witness: the guard on the fresh, never-initialized session. -/
theorem C6_uninitialized_guard_witness :
    SensorCtx.new.is_set = false ∧
    is_user_enrolled fwOK SensorCtx.new = (.error "BM-Lite not initialized", []) ∧
    enroll_user fwOK SensorCtx.new = (.error "BM-Lite not initialized", []) ∧
    check_once fwOK SensorCtx.new 5000 = (.error "BM-Lite not initialized", []) :=
  ⟨by decide, (C6_uninitialized_guard fwOK SensorCtx.new 5000 rfl).1,
   (C6_uninitialized_guard fwOK SensorCtx.new 5000 rfl).2.1,
   (C6_uninitialized_guard fwOK SensorCtx.new 5000 rfl).2.2⟩

/-- C7: `deinit` is a no-op success on a non-initialized session; on an
initialized session it performs exactly the platform teardown call, and on
an OK status it clears the initialized flag and releases the Protocol
Channel (no chain block stays live), while on a non-OK status it returns
the error carrying the raw code and leaves the context and heap unchanged. -/
theorem C7_deinit_lifecycle (fw : Fw) (c : SensorCtx) (h : Heap) :
    (c.is_set = false → deinit fw c h = ⟨.ok (), c, h, []⟩) ∧
    (c.is_set = true → fw.platformDeinitRes = FPC_BEP_RESULT_OK →
      (deinit fw c h).res = .ok () ∧
      (deinit fw c h).ctx.initialized = false ∧
      (deinit fw c h).heap.countKind .chainBlock = 0 ∧
      (deinit fw c h).evs = [.call .platformDeinitCall]) ∧
    (c.is_set = true → fw.platformDeinitRes ≠ FPC_BEP_RESULT_OK →
      (deinit fw c h).res =
        .error ("platform_deinit failed with code " ++
                toString fw.platformDeinitRes) ∧
      (deinit fw c h).ctx = c ∧ (deinit fw c h).heap = h ∧
      (deinit fw c h).evs = [.call .platformDeinitCall]) := by
  refine ⟨?_, ?_, ?_⟩
  · intro hc; simp [deinit, hc]
  · intro hc hp
    simp [deinit, check_bep, hc, hp, SensorCtx.reset, Heap.countKind,
          live_filter_sessionKinds]
    intro a b _ hb
    subst hb
    decide
  · intro hc hp; simp [deinit, check_bep, hc, hp]

/-- C7 witness: successful teardown of the initialized session. -/
theorem C7_deinit_lifecycle_witness :
    ctxInit.is_set = true ∧ fwOK.platformDeinitRes = FPC_BEP_RESULT_OK ∧
    ((deinit fwOK ctxInit heapInit).res = .ok () ∧
     (deinit fwOK ctxInit heapInit).ctx.initialized = false ∧
     (deinit fwOK ctxInit heapInit).heap.countKind .chainBlock = 0 ∧
     (deinit fwOK ctxInit heapInit).evs = [.call .platformDeinitCall]) :=
  ⟨by decide, by decide,
   (C7_deinit_lifecycle fwOK ctxInit heapInit).2.1 (by decide) rfl⟩

/-- C8: on an initialized session with a successful count query,
`enroll_if_needed` with a positive stored-template count succeeds after the
count query alone — no capture and no save call; with a zero count it
performs the count query, calibrate, soft reset, guided capture and save
under template id 1, in that strict order. -/
theorem C8_enroll_if_needed_gating (fw : Fw) (c : SensorCtx) (h : Heap)
    (hc : c.is_set = true) (hcount : fw.countRes = FPC_BEP_RESULT_OK) :
    (fw.countVal > 0 →
      (enroll_if_needed fw c h).res = .ok () ∧
      (enroll_if_needed fw c h).evs = [.call .templateGetCount]) ∧
    (fw.countVal = 0 → fw.calibrateRes = FPC_BEP_RESULT_OK →
     fw.swResetRes = FPC_BEP_RESULT_OK → fw.enrollRes = FPC_BEP_RESULT_OK →
     fw.saveRes = FPC_BEP_RESULT_OK →
      (enroll_if_needed fw c h).res = .ok () ∧
      (enroll_if_needed fw c h).evs =
        [.call .templateGetCount, .call .calibrate, .call .swReset,
         .call .enrollFinger, .call (.templateSave 1)]) := by
  constructor
  · intro hpos
    simp [enroll_if_needed, check_bep, hc, hcount, hpos]
  · intro h0 h1 h2 h3 h4
    simp [enroll_if_needed, check_bep, hc, hcount, h0, h1, h2, h3, h4]

/-- C8 witness: with one template already stored, `enroll_if_needed`
succeeds and its trace is the count query alone. -/
theorem C8_enroll_if_needed_gating_witness :
    ctxInit.is_set = true ∧ fwOK.countRes = FPC_BEP_RESULT_OK ∧
    fwOK.countVal > 0 ∧
    ((enroll_if_needed fwOK ctxInit heapInit).res = .ok () ∧
     (enroll_if_needed fwOK ctxInit heapInit).evs = [.call .templateGetCount]) :=
  ⟨by decide, by decide, by decide,
   (C8_enroll_if_needed_gating fwOK ctxInit heapInit (by decide) rfl).1
     (by decide)⟩

end Fingerprint
